import Mathlib

/-
Verification of the NuiFlo-WorkForce intelligent LLM router core
(`backend/app/core/intelligent_router.py` plus the cost-tracking part of
`backend/app/services/hybrid_crew_extensions.py`).

Shallow embedding conventions:
* Python `float` and `decimal.Decimal` values are both modelled by exact
  rationals (ℚ).  Every claim settled below is insensitive to IEEE-754
  rounding: at each threshold comparison the exact value and the float
  value fall on the same side (e.g. the scenario-B heuristic score is
  9/20 exactly and 0.44999999999999996 as a float; both are < 1/2).
* CPython refuses implicit mixing of `float` and `Decimal` in binary
  arithmetic: `float * Decimal` and `float - Decimal` raise `TypeError`
  (the `decimal` module only interoperates with `int`; comparisons are
  exempt).  This is modelled by the `PyNum` type below, whose operations
  return `Except`.  The router multiplies the float `estimated_tokens /
  1000` by a `Decimal` pricing entry, so this matters.
* Network calls (the Ollama probe, the local-model classification call,
  and the provider execution calls) are modelled by parameters carrying
  their outcome (`Bool` flags / `Except` values), as is standard for I/O.
* Wall-clock durations (`duration_seconds`, timestamps) are omitted from
  the records; no claim mentions them.
-/

namespace NuiFlo

/-- Model of the two CPython numeric types that appear in the router's
arithmetic.  The payload is the exact rational value. -/
inductive PyNum where
  | float (q : ℚ)
  | decimal (q : ℚ)
deriving DecidableEq

/-- The rational value carried by a `PyNum`. -/
def PyNum.val : PyNum → ℚ
  | .float q => q
  | .decimal q => q

/-- CPython message for `float * Decimal` (apostrophes elided). -/
def PyNum.mulTypeErrorMsg : String :=
  "unsupported operand type(s) for *: float and decimal.Decimal"

/-- CPython message for `float - Decimal` / `Decimal - float`. -/
def PyNum.subTypeErrorMsg : String :=
  "unsupported operand type(s) for -: float and decimal.Decimal"

/-- Python multiplication on `float`/`Decimal` operands: same-type
multiplication succeeds, mixed `float`/`Decimal` raises `TypeError`. -/
def PyNum.mul : PyNum → PyNum → Except String PyNum
  | .float a, .float b => .ok (.float (a * b))
  | .decimal a, .decimal b => .ok (.decimal (a * b))
  | .float _, .decimal _ => .error PyNum.mulTypeErrorMsg
  | .decimal _, .float _ => .error PyNum.mulTypeErrorMsg

/-- Python subtraction on `float`/`Decimal` operands, same rule. -/
def PyNum.sub : PyNum → PyNum → Except String PyNum
  | .float a, .float b => .ok (.float (a - b))
  | .decimal a, .decimal b => .ok (.decimal (a - b))
  | .float _, .decimal _ => .error PyNum.subTypeErrorMsg
  | .decimal _, .float _ => .error PyNum.subTypeErrorMsg

/-- `class ComplexityLevel(Enum)` — task complexity levels. -/
inductive ComplexityLevel where
  | SIMPLE
  | MEDIUM
  | COMPLEX
  | SPECIALIZED
deriving DecidableEq

/-- `class LLMProvider(Enum)` — available LLM providers. -/
inductive LLMProvider where
  | OLLAMA_MISTRAL
  | OPENAI_GPT_35
  | OPENAI_GPT_4
  | ANTHROPIC_CLAUDE
deriving DecidableEq

/-- `@dataclass RoutingDecision` (decimal costs and float confidences
modelled as ℚ). -/
structure RoutingDecision where
  provider : LLMProvider
  model : String
  estimated_cost : ℚ
  reasoning : String
  complexity : ComplexityLevel
  confidence : ℚ
deriving DecidableEq

/-- `@dataclass ExecutionResult` (without the wall-clock
`duration_seconds` field, which no claim mentions). -/
structure ExecutionResult where
  content : String
  provider : LLMProvider
  actual_tokens : ℤ
  actual_cost : ℚ
  success : Bool
  error : Option String
deriving DecidableEq

/-- The router state after `__init__`: the analyzer's probe result and the
three client handles.  `ollama_available` is set by
`ComplexityAnalyzer._initialize_ollama` (HTTP version probe succeeded);
each `*_client` flag records that the corresponding client object was
constructed in `IntelligentLLMRouter._initialize_clients` (for the cloud
vendors this requires the API key to be configured; for Ollama it is mere
object construction, no connectivity check). -/
structure RouterState where
  ollama_available : Bool
  ollama_client : Bool
  openai_client : Bool
  anthropic_client : Bool
deriving DecidableEq

/-- `self.pricing` — Decimal price per 1K tokens for each provider. -/
def pricing : LLMProvider → ℚ
  | .OLLAMA_MISTRAL => 0
  | .OPENAI_GPT_35 => mkRat 15 10000
  | .OPENAI_GPT_4 => mkRat 3 100
  | .ANTHROPIC_CLAUDE => mkRat 8 10000

/-- Does `needle` match at the head of `hay`?  (Building block for
Python's substring operator `in`.) -/
def matches_at : List Char → List Char → Bool
  | [], _ => true
  | _ :: _, [] => false
  | a :: as, b :: bs => a == b && matches_at as bs

/-- Python's substring test `needle in hay` on strings, over `List Char`. -/
def is_sub (needle : List Char) : List Char → Bool
  | [] => needle.isEmpty
  | c :: rest => matches_at needle (c :: rest) || is_sub needle rest

/-- The `complex_keywords` list of `_heuristic_complexity_score`. -/
def complex_keywords : List (List Char) :=
  ["analyze".data, "design".data, "architect".data, "optimize".data,
   "algorithm".data, "machine learning".data, "deep learning".data,
   "neural network".data, "research".data, "scientific".data,
   "mathematical".data, "statistical".data, "reasoning".data,
   "logic".data, "proof".data, "theorem".data, "philosophy".data]

/-- The `simple_keywords` list of `_heuristic_complexity_score`. -/
def simple_keywords : List (List Char) :=
  ["list".data, "summarize".data, "translate".data, "format".data,
   "convert".data, "extract".data, "find".data, "search".data,
   "basic".data, "simple".data]

/-- The code-related keyword list (`+0.2` once if any is present). -/
def code_keywords : List (List Char) :=
  ["python".data, "javascript".data, "sql".data, "code".data,
   "programming".data]

/-- The creative-task keyword list (`+0.1` once if any is present). -/
def creative_keywords : List (List Char) :=
  ["write".data, "create".data, "generate".data, "story".data]

/-- Number of keywords of `kws` present in `lower` (the loop adds a fixed
weight per present keyword, so only presence per keyword matters). -/
def keyword_hits (kws : List (List Char)) (lower : List Char) : ℕ :=
  (kws.filter (fun k => is_sub k lower)).length

/-- The length-factor part of `_heuristic_complexity_score` (computed on
the original prompt, before lowercasing). -/
def length_bonus (len : ℕ) : ℚ :=
  if len > 1000 then mkRat 1 5 else if len > 500 then mkRat 1 10 else 0

/-- `max(0.0, min(1.0, score))`, written with explicit conditionals. -/
def clamp01 (s : ℚ) : ℚ :=
  if s < 0 then 0 else if 1 < s then 1 else s

/-- `ComplexityAnalyzer._heuristic_complexity_score`.  Python's
`str.lower` is modelled by `Char.toLower` (ASCII; all keywords are ASCII).
The final line clamps to [0, 1]. -/
def heuristic_complexity_score (prompt : List Char) : ℚ :=
  let lower := prompt.map Char.toLower
  let score : ℚ :=
    length_bonus prompt.length
      + (keyword_hits complex_keywords lower : ℚ) * (mkRat 3 20)
      - (keyword_hits simple_keywords lower : ℚ) * (mkRat 1 10)
      + (if code_keywords.any (fun k => is_sub k lower) then mkRat 1 5 else 0)
      + (if creative_keywords.any (fun k => is_sub k lower) then mkRat 1 10 else 0)
  clamp01 score

/-- The score-to-tier mapping at the end of
`ComplexityAnalyzer.analyze_complexity` (fixed thresholds). -/
def tier_of_score (s : ℚ) : ComplexityLevel :=
  if s < mkRat 1 5 then .SIMPLE
  else if s < mkRat 1 2 then .MEDIUM
  else if s < mkRat 4 5 then .COMPLEX
  else .SPECIALIZED

/-- The blended score of `ComplexityAnalyzer.analyze_complexity`:
`llm_outcome` is the outcome of `_llm_complexity_analysis` (its returned
score, or the exception it raised); the call is only attempted when the
probe succeeded and the heuristic score exceeds 0.3, and any failure
falls back to the heuristic score. -/
def final_score (ollama_available : Bool) (llm_outcome : Except String ℚ)
    (prompt : List Char) : ℚ :=
  let h := heuristic_complexity_score prompt
  if ollama_available = true ∧ mkRat 3 10 < h then
    match llm_outcome with
    | .ok s => h * (mkRat 2 5) + s * (mkRat 3 5)
    | .error _ => h
  else h

/-- `ComplexityAnalyzer.analyze_complexity` (the optional `context`
argument is only forwarded to the local-model call, which is abstracted
by `llm_outcome`). -/
def analyze_complexity (ollama_available : Bool)
    (llm_outcome : Except String ℚ) (prompt : List Char) : ComplexityLevel :=
  tier_of_score (final_score ollama_available llm_outcome prompt)

/-- Word count of Python's `prompt.split()` (whitespace-separated,
ignoring leading/trailing/repeated whitespace); the `Bool` tracks whether
the scan is currently inside a word. -/
def word_count_aux : List Char → Bool → ℕ
  | [], _ => 0
  | c :: rest, in_word =>
    if c.isWhitespace then word_count_aux rest false
    else (if in_word then 0 else 1) + word_count_aux rest true

/-- `len(prompt.split())`. -/
def word_count (l : List Char) : ℕ := word_count_aux l false

/-- The cost expression `(estimated_tokens / 1000) * self.pricing[p]`:
`estimated_tokens` is a Python float (`len(prompt.split()) * 1.3`), the
pricing entry is a `Decimal`, so this is `float * Decimal`. -/
def provider_cost (estimated_tokens : ℚ) (price : ℚ) : Except String ℚ :=
  match PyNum.mul (.float (estimated_tokens / 1000)) (.decimal price) with
  | .ok v => .ok v.val
  | .error e => .error e

/-- `IntelligentLLMRouter._generate_routing_options`.  An uncaught
exception inside the method is modelled by `Except.error`; note that the
method has no branch for `SPECIALIZED`, which therefore returns the
initial empty `options` list. -/
def generate_routing_options (st : RouterState) (complexity : ComplexityLevel)
    (estimated_tokens : ℚ) (preferred_quality : String) :
    Except String (List RoutingDecision) :=
  match complexity with
  | .SIMPLE =>
    let base : List RoutingDecision :=
      if st.ollama_client = true then
        [{ provider := .OLLAMA_MISTRAL, model := "mistral:7b-instruct",
           estimated_cost := 0,
           reasoning := "Simple task, Ollama can handle efficiently",
           complexity := .SIMPLE, confidence := mkRat 9 10 }]
      else []
    if st.openai_client = true then
      match provider_cost estimated_tokens (pricing .OPENAI_GPT_35) with
      | .error e => .error e
      | .ok cost =>
        .ok (base ++
          [{ provider := .OPENAI_GPT_35, model := "gpt-3.5-turbo",
             estimated_cost := cost, reasoning := "Backup for simple task",
             complexity := .SIMPLE, confidence := mkRat 4 5 }])
    else .ok base
  | .MEDIUM =>
    let base : List RoutingDecision :=
      if preferred_quality = "fast" ∧ st.ollama_client = true then
        [{ provider := .OLLAMA_MISTRAL, model := "mistral:7b-instruct",
           estimated_cost := 0,
           reasoning := "Fast processing requested, Ollama is instant",
           complexity := .MEDIUM, confidence := mkRat 7 10 }]
      else []
    if st.openai_client = true then
      match provider_cost estimated_tokens (pricing .OPENAI_GPT_35) with
      | .error e => .error e
      | .ok cost =>
        .ok (base ++
          [{ provider := .OPENAI_GPT_35, model := "gpt-3.5-turbo",
             estimated_cost := cost,
             reasoning := "Good balance of cost and capability for medium tasks",
             complexity := .MEDIUM, confidence := mkRat 9 10 }])
    else .ok base
  | .COMPLEX =>
    match (if st.openai_client = true then
             match provider_cost estimated_tokens (pricing .OPENAI_GPT_4) with
             | .error e => .error e
             | .ok cost =>
               .ok [{ provider := .OPENAI_GPT_4, model := "gpt-4",
                      estimated_cost := cost,
                      reasoning := "Complex reasoning requires GPT-4 capabilities",
                      complexity := .COMPLEX, confidence := mkRat 19 20 }]
           else (.ok [] : Except String (List RoutingDecision))) with
    | .error e => .error e
    | .ok base =>
      if st.anthropic_client = true then
        match provider_cost estimated_tokens (pricing .ANTHROPIC_CLAUDE) with
        | .error e => .error e
        | .ok cost =>
          .ok (base ++
            [{ provider := .ANTHROPIC_CLAUDE, model := "claude-3-haiku-20240307",
               estimated_cost := cost,
               reasoning := "Claude alternative for complex reasoning",
               complexity := .COMPLEX, confidence := mkRat 9 10 }])
      else .ok base
  | .SPECIALIZED => .ok []

/-- The two ways `route_request` can terminate abnormally:
`noProvider` is the `Exception("No available LLM providers!")` of
`_create_fallback_option` (the spec calls it NoProviderAvailable);
`typeError` is an uncaught Python `TypeError` from cost arithmetic. -/
inductive RouteError where
  | noProvider
  | typeError (msg : String)
deriving DecidableEq

/-- `IntelligentLLMRouter._create_fallback_option`: the free local model
if its client exists, otherwise the raise. -/
def create_fallback_option (st : RouterState) (complexity : ComplexityLevel) :
    Except RouteError RoutingDecision :=
  if st.ollama_client = true then
    .ok { provider := .OLLAMA_MISTRAL, model := "mistral:7b-instruct",
          estimated_cost := 0, reasoning := "Fallback to free local model",
          complexity := complexity, confidence := mkRat 1 2 }
  else .error .noProvider

/-- The budget filter of `route_request`: `if max_budget:` is Python
truthiness, so `None` and `Decimal("0")` both skip the filter; any other
value filters by `opt.estimated_cost <= max_budget` preserving order. -/
def apply_budget (max_budget : Option ℚ) (options : List RoutingDecision) :
    List RoutingDecision :=
  match max_budget with
  | none => options
  | some b =>
    if b = 0 then options
    else options.filter (fun o => decide (o.estimated_cost ≤ b))

/-- `IntelligentLLMRouter.route_request`, lines 296-315: candidate
generation, budget filter, fallback, and selection of `options[0]`, with
the complexity tier and token estimate already computed (see
`route_request` for the full composition). -/
def route_request_core (st : RouterState) (complexity : ComplexityLevel)
    (estimated_tokens : ℚ) (max_budget : Option ℚ)
    (preferred_quality : String) : Except RouteError RoutingDecision :=
  match generate_routing_options st complexity estimated_tokens preferred_quality with
  | .error e => .error (.typeError e)
  | .ok options0 =>
    match apply_budget max_budget options0 with
    | [] => create_fallback_option st complexity
    | selected :: _ => .ok selected

/-- `IntelligentLLMRouter.route_request` in full: analyzes complexity,
estimates tokens as `len(prompt.split()) * 1.3`, then routes. -/
def route_request (st : RouterState) (prompt : List Char)
    (llm_outcome : Except String ℚ) (max_budget : Option ℚ)
    (preferred_quality : String) : Except RouteError RoutingDecision :=
  route_request_core st
    (analyze_complexity st.ollama_available llm_outcome prompt)
    ((word_count prompt : ℚ) * (mkRat 13 10)) max_budget preferred_quality

/-- The `{'content': ..., 'tokens': ...}` dict returned by the
`_execute_ollama` / `_execute_openai` / `_execute_anthropic` helpers. -/
structure RawProviderResult where
  content : String
  tokens : ℤ
deriving DecidableEq

/-- `IntelligentLLMRouter.execute_request`.  `call_outcome` is the result
of the dispatched provider helper (its returned dict, or the exception it
raised).  The whole body is wrapped in `try/except Exception`, which maps
any exception to a failure `ExecutionResult`; the cost line
`(result['tokens'] / 1000) * self.pricing[...]` is `float * Decimal`, and
its `TypeError` lands in the same handler. -/
def execute_request (decision : RoutingDecision)
    (call_outcome : Except String RawProviderResult) : ExecutionResult :=
  match call_outcome with
  | .error e =>
    { content := "", provider := decision.provider, actual_tokens := 0,
      actual_cost := 0, success := false, error := some e }
  | .ok r =>
    match PyNum.mul (.float ((r.tokens : ℚ) / 1000))
        (.decimal (pricing decision.provider)) with
    | .error e =>
      { content := "", provider := decision.provider, actual_tokens := 0,
        actual_cost := 0, success := false, error := some e }
    | .ok c =>
      { content := r.content, provider := decision.provider,
        actual_tokens := r.tokens, actual_cost := c.val, success := true,
        error := none }

/-- One entry of `execution_metrics["task_history"]` (timestamp and
wall-clock duration omitted). -/
structure TaskHistoryEntry where
  provider : LLMProvider
  complexity : ComplexityLevel
  tokens : ℤ
  cost : ℚ
  savings : ℚ
deriving DecidableEq

/-- `HybridNuiFloAgent.execution_metrics`. -/
structure ExecutionMetrics where
  total_tokens : ℤ
  total_cost : ℚ
  ollama_calls : ℕ
  commercial_calls : ℕ
  savings : ℚ
  task_history : List TaskHistoryEntry
deriving DecidableEq

/-- `HybridNuiFloAgent._track_execution`.  The dict is mutated in place,
so the updates made before an exception persist; the return value pairs
the metrics state as left behind with the method outcome.  The line
`gpt4_cost = (result.actual_tokens / 1000) * Decimal("0.03")` is
`float * Decimal`; if it succeeded, `gpt4_cost - result.actual_cost`
would be `float - Decimal`. -/
def track_execution (m : ExecutionMetrics) (decision : RoutingDecision)
    (result : ExecutionResult) : ExecutionMetrics × Except String Unit :=
  let m1 := { m with total_tokens := m.total_tokens + result.actual_tokens,
                     total_cost := m.total_cost + result.actual_cost }
  let m2 := if result.provider = LLMProvider.OLLAMA_MISTRAL then
              { m1 with ollama_calls := m1.ollama_calls + 1 }
            else { m1 with commercial_calls := m1.commercial_calls + 1 }
  match PyNum.mul (.float ((result.actual_tokens : ℚ) / 1000))
      (.decimal (mkRat 3 100)) with
  | .error e => (m2, .error e)
  | .ok gpt4_cost =>
    match PyNum.sub gpt4_cost (.decimal result.actual_cost) with
    | .error e => (m2, .error e)
    | .ok savings_val =>
      ({ m2 with savings := m2.savings + savings_val.val,
                 task_history := m2.task_history ++
                   [{ provider := result.provider,
                      complexity := decision.complexity,
                      tokens := result.actual_tokens,
                      cost := result.actual_cost,
                      savings := savings_val.val }] }, .ok ())

/-- `HybridNuiFloAgent._calculate_savings`:
`(result.actual_tokens / 1000) * Decimal("0.03") - result.actual_cost`. -/
def calculate_savings (result : ExecutionResult) : Except String ℚ :=
  match PyNum.mul (.float ((result.actual_tokens : ℚ) / 1000))
      (.decimal (mkRat 3 100)) with
  | .error e => .error e
  | .ok gpt4_cost =>
    match PyNum.sub gpt4_cost (.decimal result.actual_cost) with
    | .error e => .error e
    | .ok savings_val => .ok savings_val.val

/-- Which client handle `_generate_routing_options` and
`_create_fallback_option` consult for each provider (the code-side
availability notion). -/
def client_initialized (st : RouterState) : LLMProvider → Bool
  | .OLLAMA_MISTRAL => st.ollama_client
  | .OPENAI_GPT_35 => st.openai_client
  | .OPENAI_GPT_4 => st.openai_client
  | .ANTHROPIC_CLAUDE => st.anthropic_client

/-- Availability in the words of the spec (claim C5, for refinement
comparison): true only if the backend's credentials/connectivity were
successfully initialized at startup — which for the local provider means
the startup connectivity probe succeeded. -/
def spec_provider_availability (st : RouterState) : LLMProvider → Bool
  | .OLLAMA_MISTRAL => st.ollama_available
  | .OPENAI_GPT_35 => st.openai_client
  | .OPENAI_GPT_4 => st.openai_client
  | .ANTHROPIC_CLAUDE => st.anthropic_client

/-- Condition under which `_generate_routing_options` reaches a
`(estimated_tokens / 1000) * Decimal` cost computation for a paid
provider (and therefore raises `TypeError`). -/
def paid_cost_computed (st : RouterState) : ComplexityLevel → Bool
  | .SIMPLE => st.openai_client
  | .MEDIUM => st.openai_client
  | .COMPLEX => st.openai_client || st.anthropic_client
  | .SPECIALIZED => false

/-- The candidate list `_generate_routing_options` returns when it does
not raise: only the zero-cost local-provider entries. -/
def zero_cost_base (st : RouterState) (complexity : ComplexityLevel)
    (preferred_quality : String) : List RoutingDecision :=
  match complexity with
  | .SIMPLE =>
    if st.ollama_client = true then
      [{ provider := .OLLAMA_MISTRAL, model := "mistral:7b-instruct",
         estimated_cost := 0,
         reasoning := "Simple task, Ollama can handle efficiently",
         complexity := .SIMPLE, confidence := mkRat 9 10 }]
    else []
  | .MEDIUM =>
    if preferred_quality = "fast" ∧ st.ollama_client = true then
      [{ provider := .OLLAMA_MISTRAL, model := "mistral:7b-instruct",
         estimated_cost := 0,
         reasoning := "Fast processing requested, Ollama is instant",
         complexity := .MEDIUM, confidence := mkRat 7 10 }]
    else []
  | .COMPLEX => []
  | .SPECIALIZED => []

/-! ### Structural lemmas about the router -/

/-- Every paid-provider cost computation is `float * Decimal` and raises. -/
theorem provider_cost_err (t p : ℚ) :
    provider_cost t p = .error PyNum.mulTypeErrorMsg := rfl

/-- `_generate_routing_options` either raises the `TypeError` (as soon as
it computes a paid provider's cost) or returns exactly the zero-cost
local-provider candidates. -/
theorem gen_options_eq (st : RouterState) (c : ComplexityLevel) (t : ℚ)
    (q : String) :
    generate_routing_options st c t q =
      (if paid_cost_computed st c = true then .error PyNum.mulTypeErrorMsg
       else .ok (zero_cost_base st c q)) := by
  obtain ⟨a, ol, op, an⟩ := st
  cases c <;> cases ol <;> cases op <;> cases an <;> rfl

/-- Without the local client, no candidate is ever generated. -/
theorem zero_cost_base_empty {st : RouterState} (h : st.ollama_client = false)
    (c : ComplexityLevel) (q : String) : zero_cost_base st c q = [] := by
  cases c <;> simp [zero_cost_base, h]

/-- Any member of the non-raising candidate list is the free local option. -/
theorem mem_zero_cost_base {st : RouterState} {c : ComplexityLevel}
    {q : String} {d : RoutingDecision} (h : d ∈ zero_cost_base st c q) :
    d.estimated_cost = 0 ∧ d.provider = .OLLAMA_MISTRAL ∧
      st.ollama_client = true := by
  cases c with
  | SIMPLE =>
    simp only [zero_cost_base] at h
    by_cases ho : st.ollama_client = true
    · rw [if_pos ho] at h
      obtain rfl := List.mem_singleton.mp h
      exact ⟨rfl, rfl, ho⟩
    · rw [if_neg ho] at h; exact absurd h (List.not_mem_nil d)
  | MEDIUM =>
    simp only [zero_cost_base] at h
    by_cases hq : q = "fast" ∧ st.ollama_client = true
    · rw [if_pos hq] at h
      obtain rfl := List.mem_singleton.mp h
      exact ⟨rfl, rfl, hq.2⟩
    · rw [if_neg hq] at h; exact absurd h (List.not_mem_nil d)
  | COMPLEX =>
    simp only [zero_cost_base] at h; exact absurd h (List.not_mem_nil d)
  | SPECIALIZED =>
    simp only [zero_cost_base] at h; exact absurd h (List.not_mem_nil d)

/-- Budget filtering only removes candidates. -/
theorem mem_apply_budget {mb : Option ℚ} {l : List RoutingDecision}
    {d : RoutingDecision} (h : d ∈ apply_budget mb l) : d ∈ l := by
  cases mb with
  | none => exact h
  | some b =>
    simp only [apply_budget] at h
    by_cases hb : b = 0
    · rwa [if_pos hb] at h
    · rw [if_neg hb] at h; exact List.mem_of_mem_filter h

/-- Budget filtering of the empty list. -/
theorem apply_budget_nil (mb : Option ℚ) :
    apply_budget mb [] = [] := by
  cases mb <;> simp [apply_budget]

/-- Every decision `route_request` actually returns is the free local
option: zero estimated cost, the Ollama provider, and the Ollama client
necessarily initialized.  (Paid candidates never survive candidate
generation because their cost computation raises.) -/
theorem route_ok_zero (st : RouterState) (c : ComplexityLevel) (t : ℚ)
    (mb : Option ℚ) (q : String) (d : RoutingDecision)
    (h : route_request_core st c t mb q = .ok d) :
    d.estimated_cost = 0 ∧ d.provider = .OLLAMA_MISTRAL ∧
      st.ollama_client = true := by
  by_cases hp : paid_cost_computed st c = true
  · have hg : generate_routing_options st c t q = .error PyNum.mulTypeErrorMsg := by
      rw [gen_options_eq, if_pos hp]
    simp only [route_request_core, hg] at h
    exact absurd h (by simp)
  · have hg : generate_routing_options st c t q = .ok (zero_cost_base st c q) := by
      rw [gen_options_eq, if_neg hp]
    simp only [route_request_core, hg] at h
    split at h
    · rename_i heq
      unfold create_fallback_option at h
      by_cases ho : st.ollama_client = true
      · rw [if_pos ho] at h
        obtain rfl : _ = d := (Except.ok.injEq _ _).mp h
        exact ⟨rfl, rfl, ho⟩
      · rw [if_neg ho] at h; exact absurd h (by simp)
    · rename_i x xs heq
      obtain rfl : x = d := (Except.ok.injEq _ _).mp h
      have hx : x ∈ apply_budget mb (zero_cost_base st c q) := by
        rw [heq]; exact List.mem_cons_self x xs
      exact mem_zero_cost_base (mem_apply_budget hx)

/-! ### Monotonicity of the heuristic score under appends -/

/-- A head match survives appending to the haystack. -/
theorem matches_at_append {n h : List Char} (k : List Char)
    (hm : matches_at n h = true) : matches_at n (h ++ k) = true := by
  induction n generalizing h with
  | nil => rfl
  | cons a as ih =>
    cases h with
    | nil => exact absurd hm (by simp [matches_at])
    | cons b bs =>
      simp only [matches_at, Bool.and_eq_true] at hm
      simp only [List.cons_append, matches_at, Bool.and_eq_true]
      exact ⟨hm.1, ih hm.2⟩

/-- The empty needle occurs in every haystack. -/
theorem is_sub_nil_needle (l : List Char) : is_sub [] l = true := by
  cases l <;> simp [is_sub, matches_at, List.isEmpty]

/-- Substring occurrence survives appending to the haystack. -/
theorem is_sub_append {n h : List Char} (k : List Char)
    (hs : is_sub n h = true) : is_sub n (h ++ k) = true := by
  induction h with
  | nil =>
    have hn : n = [] := by
      cases n with
      | nil => rfl
      | cons a as => exact absurd hs (by simp [is_sub, List.isEmpty])
    subst hn
    exact is_sub_nil_needle k
  | cons b bs ih =>
    simp only [is_sub, Bool.or_eq_true] at hs
    rw [List.cons_append]
    simp only [is_sub, Bool.or_eq_true]
    rcases hs with hm | hrest
    · exact Or.inl (by
        have := matches_at_append (h := b :: bs) k hm
        simpa using this)
    · exact Or.inr (ih hrest)

/-- Appending to the haystack can only add keyword hits. -/
theorem keyword_hits_append_le (kws : List (List Char)) (l k : List Char) :
    keyword_hits kws l ≤ keyword_hits kws (l ++ k) := by
  unfold keyword_hits
  induction kws with
  | nil => simp
  | cons w ws ih =>
    rw [List.filter_cons, List.filter_cons]
    by_cases hw : is_sub w l = true
    · rw [if_pos hw, if_pos (is_sub_append k hw)]
      simpa using ih
    · rw [if_neg hw]
      by_cases hw2 : is_sub w (l ++ k) = true
      · rw [if_pos hw2]
        simp only [List.length_cons]
        omega
      · rw [if_neg hw2]; exact ih

/-- If no keyword of `kws` occurs in `l ++ k` without already occurring
in `l`, the hit count is unchanged by the append. -/
theorem keyword_hits_append_eq (kws : List (List Char)) (l k : List Char)
    (h : ∀ w ∈ kws, is_sub w (l ++ k) = true → is_sub w l = true) :
    keyword_hits kws (l ++ k) = keyword_hits kws l := by
  unfold keyword_hits
  have : ∀ w ∈ kws, is_sub w (l ++ k) = is_sub w l := by
    intro w hw
    by_cases hb : is_sub w l = true
    · rw [hb, is_sub_append k hb]
    · by_cases hb2 : is_sub w (l ++ k) = true
      · exact absurd (h w hw hb2) hb
      · rw [Bool.not_eq_true] at hb hb2; rw [hb, hb2]

  rw [List.filter_congr this]

/-- Presence of any keyword survives appending to the haystack. -/
theorem any_is_sub_append {kws : List (List Char)} {l : List Char}
    (k : List Char) (h : (kws.any fun w => is_sub w l) = true) :
    (kws.any fun w => is_sub w (l ++ k)) = true := by
  rw [List.any_eq_true] at h ⊢
  obtain ⟨w, hw, hs⟩ := h
  exact ⟨w, hw, is_sub_append k hs⟩

/-- The length bonus is monotone in the prompt length. -/
theorem length_bonus_mono {a b : ℕ} (h : a ≤ b) :
    length_bonus a ≤ length_bonus b := by
  unfold length_bonus
  split_ifs <;> first | decide | omega

/-- The final clamp to [0, 1] is monotone. -/
theorem clamp01_mono {s t : ℚ} (h : s ≤ t) : clamp01 s ≤ clamp01 t := by
  unfold clamp01
  split_ifs <;> linarith

/-- The threshold characterization of the score-to-tier mapping. -/
theorem tier_of_score_spec (s : ℚ) :
    (tier_of_score s = .SIMPLE ↔ s < mkRat 1 5) ∧
    (tier_of_score s = .MEDIUM ↔ mkRat 1 5 ≤ s ∧ s < mkRat 1 2) ∧
    (tier_of_score s = .COMPLEX ↔ mkRat 1 2 ≤ s ∧ s < mkRat 4 5) ∧
    (tier_of_score s = .SPECIALIZED ↔ mkRat 4 5 ≤ s) := by
  have h12 : (mkRat 1 5 : ℚ) < mkRat 1 2 := by decide
  have h24 : (mkRat 1 2 : ℚ) < mkRat 4 5 := by decide
  unfold tier_of_score
  split_ifs with h1 h2 h3
  · refine ⟨iff_of_true rfl h1, iff_of_false (by simp) ?_,
      iff_of_false (by simp) ?_, iff_of_false (by simp) ?_⟩
    · rintro ⟨h, _⟩; linarith
    · rintro ⟨h, _⟩; linarith
    · intro h; linarith
  · have h1' := le_of_not_lt h1
    refine ⟨iff_of_false (by simp) ?_, iff_of_true rfl ⟨h1', h2⟩,
      iff_of_false (by simp) ?_, iff_of_false (by simp) ?_⟩
    · intro h; linarith
    · rintro ⟨h, _⟩; linarith
    · intro h; linarith
  · have h2' := le_of_not_lt h2
    refine ⟨iff_of_false (by simp) ?_, iff_of_false (by simp) ?_,
      iff_of_true rfl ⟨h2', h3⟩, iff_of_false (by simp) ?_⟩
    · intro h; linarith
    · rintro ⟨_, h⟩; linarith
    · intro h; linarith
  · have h3' := le_of_not_lt h3
    refine ⟨iff_of_false (by simp) ?_, iff_of_false (by simp) ?_,
      iff_of_false (by simp) ?_, iff_of_true rfl h3'⟩
    · intro h; linarith
    · rintro ⟨_, h⟩; linarith
    · rintro ⟨_, h⟩; linarith

/-- On any failure of the local-model call, the blended score degrades to
the heuristic score alone. -/
theorem final_score_error (avail : Bool) (e : String) (prompt : List Char) :
    final_score avail (.error e) prompt = heuristic_complexity_score prompt := by
  unfold final_score
  split
  · rename_i s heq; exact absurd heq (by simp)
  · simp

/-! ### Claim theorems -/

/-- C1 (counterexample): with the OpenAI client initialized but the local
client missing, a SPECIALIZED-tier request raises NoProviderAvailable
even though the available-provider set is not empty — refuting the claim
that `route_request` raises NoProviderAvailable only when no provider at
all is available. -/
theorem c1_counterexample :
    route_request_core ⟨false, false, true, false⟩ .SPECIALIZED 10 none
        "balanced" = .error .noProvider ∧
      client_initialized ⟨false, false, true, false⟩ .OPENAI_GPT_4 = true :=
  ⟨rfl, rfl⟩

/-- C1 (amended): `route_request` raises the `TypeError` from
`float * Decimal` cost arithmetic exactly when candidate generation
computes a paid provider's cost (OpenAI client initialized with tier
SIMPLE/MEDIUM/COMPLEX, or Anthropic client initialized with tier
COMPLEX); it raises NoProviderAvailable exactly when no such computation
occurs and the local client is uninitialized; in all remaining cases it
returns a decision. -/
theorem c1_route_error_iff (st : RouterState) (c : ComplexityLevel) (t : ℚ)
    (mb : Option ℚ) (q : String) :
    (route_request_core st c t mb q = .error .noProvider ↔
      paid_cost_computed st c = false ∧ st.ollama_client = false) ∧
    (route_request_core st c t mb q = .error (.typeError PyNum.mulTypeErrorMsg) ↔
      paid_cost_computed st c = true) := by
  by_cases hp : paid_cost_computed st c = true
  · have hg : generate_routing_options st c t q = .error PyNum.mulTypeErrorMsg := by
      rw [gen_options_eq, if_pos hp]
    constructor
    · simp [route_request_core, hg, hp]
    · simp [route_request_core, hg, hp]
  · have hg : generate_routing_options st c t q = .ok (zero_cost_base st c q) := by
      rw [gen_options_eq, if_neg hp]
    have hp' : paid_cost_computed st c = false := by
      rwa [Bool.not_eq_true] at hp
    by_cases ho : st.ollama_client = true
    · cases hab : apply_budget mb (zero_cost_base st c q) with
      | nil =>
        constructor
        · simp [route_request_core, hg, hab, create_fallback_option, ho, hp']
        · simp [route_request_core, hg, hab, create_fallback_option, ho, hp']
      | cons x xs =>
        constructor
        · simp [route_request_core, hg, hab, ho, hp']
        · simp [route_request_core, hg, hab, hp']
    · have hol : st.ollama_client = false := by rwa [Bool.not_eq_true] at ho
      have hbase : zero_cost_base st c q = [] := zero_cost_base_empty hol c q
      constructor
      · simp [route_request_core, hg, hbase, apply_budget_nil,
          create_fallback_option, hol, hp']
      · simp [route_request_core, hg, hbase, apply_budget_nil,
          create_fallback_option, hol, hp']

/-- C2: whenever the dispatched provider call raises, `execute_request`
returns (rather than raises) the failure-shaped result: empty content,
zero tokens, zero cost, `success = false`, and the error description.
(`execute_request` is a total function of the call outcome, so it never
raises for any decision.) -/
theorem c2_execute_failure_shape (d : RoutingDecision) (e : String) :
    execute_request d (.error e) =
      { content := "", provider := d.provider, actual_tokens := 0,
        actual_cost := 0, success := false, error := some e } := rfl

/-- C3 (code evaluation): `_track_execution` always raises the
`float * Decimal` `TypeError` at the `gpt4_cost` line, for every metrics
state and result — in particular the cumulative savings total is never
updated — and `_calculate_savings` raises identically.  The claim that
savings are computed and accumulated without raising is refuted. -/
theorem c3_track_execution_raises (m : ExecutionMetrics)
    (dec : RoutingDecision) (r : ExecutionResult) :
    (track_execution m dec r).2 = .error PyNum.mulTypeErrorMsg ∧
    (track_execution m dec r).1.savings = m.savings ∧
    calculate_savings r = .error PyNum.mulTypeErrorMsg := by
  refine ⟨rfl, ?_, rfl⟩
  unfold track_execution
  by_cases hprov : r.provider = LLMProvider.OLLAMA_MISTRAL
  · simp [hprov, PyNum.mul]
  · simp [hprov, PyNum.mul]

/-- C4: when a budget is supplied and the generated candidate list has at
least one candidate within it, the selected decision's estimated cost
does not exceed the budget. -/
theorem c4_budget_respected (st : RouterState) (c : ComplexityLevel)
    (t : ℚ) (q : String) (b : ℚ) (opts : List RoutingDecision)
    (d : RoutingDecision)
    (hgen : generate_routing_options st c t q = .ok opts)
    (hex : ∃ o ∈ opts, o.estimated_cost ≤ b)
    (hroute : route_request_core st c t (some b) q = .ok d) :
    d.estimated_cost ≤ b := by
  obtain ⟨o, ho, hob⟩ := hex
  have hd := route_ok_zero st c t (some b) q d hroute
  rw [gen_options_eq] at hgen
  by_cases hp : paid_cost_computed st c = true
  · rw [if_pos hp] at hgen; exact absurd hgen (by simp)
  · rw [if_neg hp] at hgen
    obtain rfl : zero_cost_base st c q = opts := (Except.ok.injEq _ _).mp hgen
    have hzero := mem_zero_cost_base ho
    rw [hd.1]
    rw [hzero.1] at hob
    exact hob

/-- C4 (witness): a concrete run — local-only router, SIMPLE tier,
budget 1 — where the in-budget candidate exists and the returned
decision respects the budget. -/
theorem c4_witness :
    RoutingDecision.estimated_cost
        { provider := .OLLAMA_MISTRAL, model := "mistral:7b-instruct",
          estimated_cost := 0,
          reasoning := "Simple task, Ollama can handle efficiently",
          complexity := .SIMPLE, confidence := mkRat 9 10 } ≤ 1 :=
  c4_budget_respected ⟨false, true, false, false⟩ .SIMPLE 10 "balanced" 1 _ _
    rfl
    ⟨{ provider := .OLLAMA_MISTRAL, model := "mistral:7b-instruct",
       estimated_cost := 0,
       reasoning := "Simple task, Ollama can handle efficiently",
       complexity := .SIMPLE, confidence := mkRat 9 10 },
      List.mem_singleton_self _, by decide⟩
    rfl

/-- C5 (counterexample): with the local connectivity probe failed but the
local HTTP client object constructed (which `_initialize_clients` does
without any probe), routing a SIMPLE request returns the Ollama provider
although its spec-defined availability (probe succeeded) is false. -/
theorem c5_counterexample :
    route_request_core ⟨false, true, false, false⟩ .SIMPLE 10 none
        "balanced" =
      .ok { provider := .OLLAMA_MISTRAL, model := "mistral:7b-instruct",
            estimated_cost := 0,
            reasoning := "Simple task, Ollama can handle efficiently",
            complexity := .SIMPLE, confidence := mkRat 9 10 } ∧
    spec_provider_availability ⟨false, true, false, false⟩ .OLLAMA_MISTRAL =
      false :=
  ⟨rfl, rfl⟩

/-- C5 (amended): every decision returned by `route_request` names a
provider whose client handle was initialized at decision time; for the
local provider this does not entail that the startup connectivity probe
succeeded, since candidate generation consults only the client handle. -/
theorem c5_decision_provider_client (st : RouterState) (c : ComplexityLevel)
    (t : ℚ) (mb : Option ℚ) (q : String) (d : RoutingDecision)
    (h : route_request_core st c t mb q = .ok d) :
    client_initialized st d.provider = true := by
  obtain ⟨-, hprov, hol⟩ := route_ok_zero st c t mb q d h
  rw [hprov]
  exact hol

/-- C5 (witness): the amended theorem applied to a concrete run. -/
theorem c5_witness :
    client_initialized ⟨false, true, false, false⟩
      (RoutingDecision.provider
        { provider := .OLLAMA_MISTRAL, model := "mistral:7b-instruct",
          estimated_cost := 0,
          reasoning := "Simple task, Ollama can handle efficiently",
          complexity := .SIMPLE, confidence := mkRat 9 10 }) = true :=
  c5_decision_provider_client ⟨false, true, false, false⟩ .SIMPLE 10 none
    "balanced" _ rfl

/-- C6: `analyze_complexity` is a total function — in particular it still
returns a tier when the local-model call raises, in which case the tier
is the threshold mapping of the heuristic score alone — and its result is
characterized by the fixed thresholds 0.2, 0.5, 0.8 on the final score,
so it is always one of the four tiers SIMPLE/MEDIUM/COMPLEX/SPECIALIZED. -/
theorem c6_analyze_total_thresholds (avail : Bool) (out : Except String ℚ)
    (prompt : List Char) (e : String) :
    analyze_complexity avail (.error e) prompt =
      tier_of_score (heuristic_complexity_score prompt) ∧
    (analyze_complexity avail out prompt = .SIMPLE ↔
      final_score avail out prompt < mkRat 1 5) ∧
    (analyze_complexity avail out prompt = .MEDIUM ↔
      mkRat 1 5 ≤ final_score avail out prompt ∧
        final_score avail out prompt < mkRat 1 2) ∧
    (analyze_complexity avail out prompt = .COMPLEX ↔
      mkRat 1 2 ≤ final_score avail out prompt ∧
        final_score avail out prompt < mkRat 4 5) ∧
    (analyze_complexity avail out prompt = .SPECIALIZED ↔
      mkRat 4 5 ≤ final_score avail out prompt) := by
  refine ⟨?_, (tier_of_score_spec _).1, (tier_of_score_spec _).2.1,
    (tier_of_score_spec _).2.2.1, (tier_of_score_spec _).2.2.2⟩
  show tier_of_score _ = _
  rw [final_score_error]

/-- C7 (counterexample): with the OpenAI client initialized, tier
SPECIALIZED generates the empty candidate list while tier COMPLEX raises
the cost-arithmetic `TypeError` — the two tiers do not produce the same
candidate list, and SPECIALIZED never contains the high-tier cloud
model. -/
theorem c7_counterexample :
    generate_routing_options ⟨false, false, true, false⟩ .SPECIALIZED 10
        "balanced" = .ok [] ∧
    generate_routing_options ⟨false, false, true, false⟩ .COMPLEX 10
        "balanced" = .error PyNum.mulTypeErrorMsg ∧
    (Except.ok ([] : List RoutingDecision) ≠
      (.error PyNum.mulTypeErrorMsg : Except String (List RoutingDecision))) :=
  ⟨rfl, rfl, fun h => nomatch h⟩

/-- C7 (amended): `_generate_routing_options` has no branch for
SPECIALIZED, so that tier always yields the empty candidate list (and
hence always routes through the fallback); it agrees with COMPLEX only
when neither cloud client is initialized, in which case both lists are
empty. -/
theorem c7_specialized_empty (st : RouterState) (t : ℚ) (q : String) :
    generate_routing_options st .SPECIALIZED t q = .ok [] ∧
    (st.openai_client = false → st.anthropic_client = false →
      generate_routing_options st .COMPLEX t q =
        generate_routing_options st .SPECIALIZED t q) := by
  refine ⟨rfl, fun h1 h2 => ?_⟩
  simp [generate_routing_options, h1, h2]

/-- C7 (witness): with both cloud clients uninitialized, COMPLEX and
SPECIALIZED agree (on the empty list). -/
theorem c7_witness :
    generate_routing_options ⟨true, true, false, false⟩ .COMPLEX 10
        "balanced" = .ok [] ∧
    generate_routing_options ⟨true, true, false, false⟩ .SPECIALIZED 10
        "balanced" = .ok [] := by
  have h := c7_specialized_empty ⟨true, true, false, false⟩ 10 "balanced"
  exact ⟨(h.2 rfl rfl).trans h.1, h.1⟩

section RatEval

attribute [local semireducible] Rat.add Rat.mul Rat.sub Rat.inv

/-- C8 (counterexample): appending the complexity keyword "theorem" to
the prompt "theorem about the forma" creates the simple keyword "format"
across the boundary; since "theorem" was already present its bonus is not
re-counted, and the score drops from 0.15 to 0.05 — appending complexity
keywords can lower the heuristic score. -/
theorem c8_counterexample :
    "theorem".data ∈ complex_keywords ∧
    heuristic_complexity_score
        ("theorem about the forma".data ++ "theorem".data) <
      heuristic_complexity_score "theorem about the forma".data := by
  exact ⟨by decide, by decide⟩

/-- C9 (counterexample): for the scenario-B prompt with the local model
available but its classification call failing, `analyze_complexity`
returns MEDIUM — not COMPLEX or SPECIALIZED as claimed (the heuristic
score is 0.45, which is below the 0.5 COMPLEX threshold). -/
theorem c9_counterexample :
    analyze_complexity true (.error "timeout")
        "design an algorithm to optimize the database query planner".data =
      .MEDIUM ∧
    ComplexityLevel.MEDIUM ≠ .COMPLEX ∧
    ComplexityLevel.MEDIUM ≠ .SPECIALIZED := by
  exact ⟨by decide, by decide, by decide⟩

/-- C9 (amended): the scenario-B prompt has heuristic score exactly 0.45
(three complex keywords, no length bonus), which exceeds the 0.3 trigger
for model-assisted scoring; when the local call fails and the heuristic
is used alone, `analyze_complexity` returns MEDIUM, since 0.45 < 0.5. -/
theorem c9_scenario_b :
    heuristic_complexity_score
        "design an algorithm to optimize the database query planner".data =
      mkRat 9 20 ∧
    mkRat 3 10 <
      heuristic_complexity_score
        "design an algorithm to optimize the database query planner".data ∧
    ∀ e : String,
      analyze_complexity true (.error e)
          "design an algorithm to optimize the database query planner".data =
        .MEDIUM := by
  refine ⟨by decide, by decide, fun e => ?_⟩
  show tier_of_score _ = _
  rw [final_score_error,
    show heuristic_complexity_score
        "design an algorithm to optimize the database query planner".data =
      mkRat 9 20 from by decide]
  decide

end RatEval

/-- C8 (amended): appending text (in particular complexity keywords) to a
prompt never lowers the heuristic score, provided every simple-indicating
keyword occurring in the extended prompt already occurred in the original
one (the counterexample shows the proviso is necessary: a simple keyword
can be formed across the append boundary). -/
theorem c8_append_mono (P K : List Char)
    (h : ∀ w ∈ simple_keywords,
      is_sub w ((P ++ K).map Char.toLower) = true →
        is_sub w (P.map Char.toLower) = true) :
    heuristic_complexity_score P ≤ heuristic_complexity_score (P ++ K) := by
  unfold heuristic_complexity_score
  dsimp only
  rw [List.map_append] at h ⊢
  apply clamp01_mono
  have hlen : P.length ≤ (P ++ K).length := by simp
  have hb := length_bonus_mono hlen
  have h320 : (0 : ℚ) ≤ mkRat 3 20 := by decide
  have hcmono :
      (keyword_hits complex_keywords (P.map Char.toLower) : ℚ) * mkRat 3 20 ≤
        (keyword_hits complex_keywords
            (P.map Char.toLower ++ K.map Char.toLower) : ℚ) * mkRat 3 20 := by
    refine mul_le_mul_of_nonneg_right ?_ h320
    exact_mod_cast keyword_hits_append_le complex_keywords _ _
  have hsimple :
      keyword_hits simple_keywords
          (P.map Char.toLower ++ K.map Char.toLower) =
        keyword_hits simple_keywords (P.map Char.toLower) :=
    keyword_hits_append_eq _ _ _ h
  have hcode :
      (if (code_keywords.any fun w => is_sub w (P.map Char.toLower)) = true
        then (mkRat 1 5 : ℚ) else 0) ≤
      (if (code_keywords.any fun w =>
            is_sub w (P.map Char.toLower ++ K.map Char.toLower)) = true
        then (mkRat 1 5 : ℚ) else 0) := by
    by_cases hx : (code_keywords.any fun w => is_sub w (P.map Char.toLower)) = true
    · rw [if_pos hx, if_pos (any_is_sub_append _ hx)]
    · rw [if_neg hx]; split
      · decide
      · exact le_refl 0
  have hcreative :
      (if (creative_keywords.any fun w => is_sub w (P.map Char.toLower)) = true
        then (mkRat 1 10 : ℚ) else 0) ≤
      (if (creative_keywords.any fun w =>
            is_sub w (P.map Char.toLower ++ K.map Char.toLower)) = true
        then (mkRat 1 10 : ℚ) else 0) := by
    by_cases hx : (creative_keywords.any fun w => is_sub w (P.map Char.toLower)) = true
    · rw [if_pos hx, if_pos (any_is_sub_append _ hx)]
    · rw [if_neg hx]; split
      · decide
      · exact le_refl 0
  rw [hsimple]
  linarith

/-- C8 (witness): the amended theorem at a concrete prompt and appended
keyword (no simple keyword is created by the append). -/
theorem c8_witness :
    heuristic_complexity_score "analyze this".data ≤
      heuristic_complexity_score ("analyze this".data ++ " theorem".data) :=
  c8_append_mono "analyze this".data " theorem".data (by decide)

/-- C10 (amended): supplying `max_budget = Decimal("0")` behaves exactly
like supplying no budget — the filter is guarded by Python truthiness, so
a zero budget performs no filtering. -/
theorem c10_zero_budget_id (st : RouterState) (c : ComplexityLevel)
    (t : ℚ) (q : String) :
    route_request_core st c t (some 0) q = route_request_core st c t none q := by
  cases hgen : generate_routing_options st c t q with
  | error e => simp [route_request_core, hgen]
  | ok opts => simp [route_request_core, hgen, apply_budget]

/-- C10 (counterexample): the claim's consequence "the returned decision's
estimated cost may be strictly positive" never occurs: no execution of
`route_request` with a zero budget (or any budget) returns a decision
with positive estimated cost, because every paid candidate is destroyed
by the cost-arithmetic `TypeError` before it can be returned. -/
theorem c10_counterexample :
    ¬ ∃ (st : RouterState) (c : ComplexityLevel) (t : ℚ) (q : String)
        (d : RoutingDecision),
        route_request_core st c t (some 0) q = .ok d ∧
          0 < d.estimated_cost := by
  rintro ⟨st, c, t, q, d, hok, hpos⟩
  have h := route_ok_zero st c t (some 0) q d hok
  rw [h.1] at hpos
  exact lt_irrefl 0 hpos

end NuiFlo
